import Mathlib

/-!
Shallow embedding of `src/channels/plugins/status-issues/telegram.ts`
(the Telegram status-issue diagnostics engine) and proofs of the spec's
testable properties about it.

JavaScript values are modelled by the inductive `JsValue`; JS numbers are
modelled as either a finite integer or a non-finite marker (NaN/Infinity),
which is all the code distinguishes via `Number.isFinite`.  Absent fields
(`undefined`) and `null` are distinct constructors.  The external shared
helpers (`isRecord`, `asString`, `resolveEnabledConfiguredAccountId`,
`appendMatchMetadata`) are not part of the source tree and are modelled
from the spec; each such definition says so in its doc comment.
-/

/-- A JavaScript number as seen by the engine: it only ever distinguishes
finite numbers (via `Number.isFinite`) from everything else. -/
inductive JsNumber where
  | finite (v : Int)
  | nonFinite
deriving DecidableEq, Repr

/-- An untyped JavaScript value, as the engine receives it. -/
inductive JsValue where
  | null
  | undefined
  | bool (b : Bool)
  | num (n : JsNumber)
  | str (s : String)
  | arr (elems : List JsValue)
  | obj (fields : List (String × JsValue))
deriving Repr

/-- Field lookup in an object literal (first binding wins, as JS object keys
are unique); missing keys read as `undefined`. -/
def lookupField : List (String × JsValue) → String → JsValue
  | [], _ => .undefined
  | (k, v) :: rest, key => if k = key then v else lookupField rest key

/-- Property access `value.key`: `undefined` on anything but an object. -/
def JsValue.get : JsValue → String → JsValue
  | .obj fields, key => lookupField fields key
  | _, _ => .undefined

/-- Modelled from the spec: `isRecord(value)` is an external shared helper
(not under src/); per the spec it is true iff the value is a non-null,
non-array structural record. -/
def isRecord : JsValue → Bool
  | .obj _ => true
  | _ => false

/-- Modelled from the spec: `asString(value)` is an external shared helper
(not under src/); per the spec it returns the value if it is already a
string, else absent (no coercion of numbers or booleans). -/
def asString : JsValue → Option String
  | .str s => some s
  | _ => none

/-- Strict equality with boolean `true` (`value === true`). -/
def strictTrue : JsValue → Bool
  | .bool true => true
  | _ => false

/-- `typeof value === "boolean" ? value : undefined`. -/
def jsBool : JsValue → Option Bool
  | .bool b => some b
  | _ => none

/-- `typeof value === "number" && Number.isFinite(value) ? value : undefined`. -/
def jsFiniteNumber : JsValue → Option Int
  | .num (.finite v) => some v
  | _ => none

/-- JS `s.toLowerCase()` (ASCII case folding, which is all the fixed
pattern sets exercise). -/
def strToLower (s : String) : String :=
  ⟨s.data.map Char.toLower⟩

/-- Emptiness of a string, computed on its character list. -/
def strIsEmpty (s : String) : Bool :=
  s.data.isEmpty

/-- JS truthiness of a `string | null | undefined` value: truthy iff present
and non-empty. -/
def optStrTruthy : Option String → Bool
  | some s => !strIsEmpty s
  | none => false

/-- `hay` starts with `needle` (on character lists). -/
def listStartsWith : List Char → List Char → Bool
  | _, [] => true
  | [], _ :: _ => false
  | a :: as, b :: bs => a == b && listStartsWith as bs

/-- `needle` occurs as a contiguous run inside `hay` (on character lists). -/
def listContainsSub : List Char → List Char → Bool
  | [], needle => listStartsWith [] needle
  | a :: rest, needle => listStartsWith (a :: rest) needle || listContainsSub rest needle

/-- JS `s.includes(pat)`. -/
def strIncludes (s pat : String) : Bool :=
  listContainsSub s.data pat.data

/-- JS `s.startsWith(pat)`. -/
def strStartsWith (s pat : String) : Bool :=
  listStartsWith s.data pat.data

/-- The narrowed account snapshot (`TelegramAccountStatus` in the source):
each field is copied verbatim from the record, still untyped. -/
structure TelegramAccountStatus where
  accountId : JsValue
  enabled : JsValue
  configured : JsValue
  allowUnmentionedGroups : JsValue
  audit : JsValue
  probe : JsValue
  running : JsValue
  connected : JsValue
  lastError : JsValue

/-- One validated group-audit entry. -/
structure GroupAuditEntry where
  chatId : String
  ok : Option Bool
  status : Option String
  error : Option String
  matchKey : Option String
  matchSource : Option String
deriving DecidableEq, Repr

/-- The validated group-membership audit summary. -/
structure TelegramGroupMembershipAuditSummary where
  unresolvedGroups : Option Int
  hasWildcardUnmentionedGroups : Option Bool
  groups : Option (List GroupAuditEntry)
deriving DecidableEq, Repr

/-- The validated probe summary. -/
structure TelegramProbeSummary where
  ok : Option Bool
  status : Option Int
  error : Option String
deriving DecidableEq, Repr

/-- An output issue (`ChannelStatusIssue` in the source); `kind` is one of
the strings "config", "runtime", "auth". -/
structure ChannelStatusIssue where
  channel : String
  accountId : String
  kind : String
  message : String
  fix : String
deriving DecidableEq, Repr

/-- `readTelegramAccountStatus`: null unless record-shaped, else copy the
nine fields verbatim. -/
def readTelegramAccountStatus (value : JsValue) : Option TelegramAccountStatus :=
  if isRecord value then
    some
      { accountId := value.get "accountId"
        enabled := value.get "enabled"
        configured := value.get "configured"
        allowUnmentionedGroups := value.get "allowUnmentionedGroups"
        audit := value.get "audit"
        probe := value.get "probe"
        running := value.get "running"
        connected := value.get "connected"
        lastError := value.get "lastError" }
  else none

/-- The per-element validator inside `readTelegramGroupMembershipAuditSummary`:
drops non-records and entries without a non-empty string `chatId`. -/
def readGroupAuditEntry (entry : JsValue) : Option GroupAuditEntry :=
  if isRecord entry then
    match asString (entry.get "chatId") with
    | none => none
    | some chatId =>
      if strIsEmpty chatId then none
      else
        some
          { chatId
            ok := jsBool (entry.get "ok")
            status := asString (entry.get "status")
            error := asString (entry.get "error")
            matchKey := asString (entry.get "matchKey")
            matchSource := asString (entry.get "matchSource") }
  else none

/-- `readTelegramGroupMembershipAuditSummary`: all fields optional; the
groups list keeps surviving entries in input order. -/
def readTelegramGroupMembershipAuditSummary (value : JsValue) :
    TelegramGroupMembershipAuditSummary :=
  if isRecord value then
    { unresolvedGroups := jsFiniteNumber (value.get "unresolvedGroups")
      hasWildcardUnmentionedGroups := jsBool (value.get "hasWildcardUnmentionedGroups")
      groups :=
        match value.get "groups" with
        | .arr elems => some (elems.filterMap readGroupAuditEntry)
        | _ => none }
  else { unresolvedGroups := none, hasWildcardUnmentionedGroups := none, groups := none }

/-- `readTelegramProbeSummary`: null unless record-shaped; `ok` strict
boolean, `status` finite number else null, `error` via `asString` else null. -/
def readTelegramProbeSummary (value : JsValue) : Option TelegramProbeSummary :=
  if isRecord value then
    some
      { ok := jsBool (value.get "ok")
        status := jsFiniteNumber (value.get "status")
        error := asString (value.get "error") }
  else none

/-- `isAuthErrorSummary`: status exactly 401 or 403, or the lower-cased
error text contains one of the four auth phrases. -/
def isAuthErrorSummary (errorText : Option String) (status : Option Int) : Bool :=
  status == some 401 || status == some 403 ||
    (match errorText with
     | some t =>
       let normalized := strToLower t
       strIncludes normalized "unauthorized" ||
         strIncludes normalized "invalid token" ||
         strIncludes normalized "not authorized" ||
         strIncludes normalized "bad request"
     | none => false)

/-- The connectivity-indicator substrings of `isNetworkErrorSummary`, in
source order. -/
def networkErrorSubstrings : List String :=
  ["econnrefused", "econnreset", "enotfound", "eai_again", "etimedout",
   "net::err", "getaddrinfo", "network is down", "socket hang up",
   "fetch failed", "dns", "network", "timeout"]

/-- `isNetworkErrorSummary`: false whenever a status is present; true when
the error text is absent or empty; else a substring scan. -/
def isNetworkErrorSummary (errorText : Option String) (status : Option Int) : Bool :=
  match status with
  | some _ => false
  | none =>
    match errorText with
    | none => true
    | some t =>
      let normalized := strToLower t
      if strIsEmpty normalized then true
      else networkErrorSubstrings.any (fun p => strIncludes normalized p)

/-- The DNS-specific substrings of `isDnsResolutionFailure`, in source order. -/
def dnsErrorSubstrings : List String :=
  ["could not resolve host", "enotfound", "eai_again", "getaddrinfo", "dns",
   "name or service not known", "temporarily unresolvable"]

/-- `isDnsResolutionFailure`: substring scan over the lower-cased text
(absent text scans the empty string). -/
def isDnsResolutionFailure (errorText : Option String) : Bool :=
  let normalized := strToLower (errorText.getD "")
  dnsErrorSubstrings.any (fun p => strIncludes normalized p)

/-- `formatProbeIssueLabel`: human label from a probe summary and a
classification tag ("auth" or "runtime"). -/
def formatProbeIssueLabel (summary : TelegramProbeSummary) (kindLabel : String) : String :=
  let status :=
    match summary.status with
    | some s => " (HTTP " ++ toString s ++ ")"
    | none => ""
  if optStrTruthy summary.error then
    if kindLabel = "auth" then
      "Token validation failed" ++ status ++ ": " ++ summary.error.getD ""
    else
      summary.error.getD "" ++ status
  else
    if kindLabel = "auth" then "Token validation failed" ++ status
    else "Probe failed" ++ status

/-- Modelled from the spec: `resolveEnabledConfiguredAccountId(status)` is an
external shared helper (not under src/); per the spec it returns the account
id only when `enabled === true` and `configured === true` and the id is a
non-empty string. -/
def resolveEnabledConfiguredAccountId (account : TelegramAccountStatus) : Option String :=
  if strictTrue account.enabled && strictTrue account.configured then
    match asString account.accountId with
    | some s => if strIsEmpty s then none else some s
    | none => none
  else none

/-- Modelled from the spec: `appendMatchMetadata(message, meta)` is an
external shared helper (not under src/); per the spec it returns the message
unchanged if both `matchKey` and `matchSource` are absent, and otherwise
appends a standardized trailing descriptor naming which configuration rule
matched the group. -/
def appendMatchMetadata (message : String) (matchKey matchSource : Option String) : String :=
  match matchKey, matchSource with
  | none, none => message
  | _, _ =>
    message ++ " (matched " ++ matchKey.getD "" ++
      (match matchSource with
       | some src => " via " ++ src
       | none => "") ++ ")"

/-- Check 2 of the synthesizer: the unmentioned-groups config warning
(`account.allowUnmentionedGroups === true`). -/
def unmentionedGroupsCheck (account : TelegramAccountStatus) (accountId : String) :
    List ChannelStatusIssue :=
  if strictTrue account.allowUnmentionedGroups then
    [{ channel := "telegram"
       accountId
       kind := "config"
       message := "Config allows unmentioned group messages (requireMention=false). Telegram Bot API privacy mode will block most group messages unless disabled."
       fix := "In BotFather run /setprivacy → Disable for this bot (then restart the gateway)." }]
  else []

/-- Check 3 of the synthesizer: the wildcard-audit config warning
(`audit.hasWildcardUnmentionedGroups === true`). -/
def wildcardAuditCheck (audit : TelegramGroupMembershipAuditSummary) (accountId : String) :
    List ChannelStatusIssue :=
  if audit.hasWildcardUnmentionedGroups = some true then
    [{ channel := "telegram"
       accountId
       kind := "config"
       message := "Telegram groups config uses \"*\" with requireMention=false; membership probing is not possible without explicit group IDs."
       fix := "Add explicit numeric group ids under channels.telegram.groups (or per-account groups) to enable probing." }]
  else []

/-- Check 4 of the synthesizer: the unresolved-groups config warning
(`audit.unresolvedGroups && audit.unresolvedGroups > 0`; a JS number is
truthy iff non-zero). -/
def unresolvedGroupsCheck (audit : TelegramGroupMembershipAuditSummary) (accountId : String) :
    List ChannelStatusIssue :=
  match audit.unresolvedGroups with
  | some n =>
    if n ≠ 0 ∧ 0 < n then
      [{ channel := "telegram"
         accountId
         kind := "config"
         message := "Some configured Telegram groups are not numeric IDs (unresolvedGroups=" ++ toString n ++ "). Membership probe can only check numeric group IDs."
         fix := "Use numeric chat IDs (e.g. -100...) as keys in channels.telegram.groups for requireMention=false groups." }]
    else []
  | none => []

/-- The one `runtime` issue built for a failing group-audit entry in check 5. -/
def groupIssueFor (accountId : String) (group : GroupAuditEntry) : ChannelStatusIssue :=
  let status := if optStrTruthy group.status then " status=" ++ group.status.getD "" else ""
  let err := if optStrTruthy group.error then ": " ++ group.error.getD "" else ""
  let baseMessage := "Group " ++ group.chatId ++ " not reachable by bot." ++ status ++ err
  { channel := "telegram"
    accountId
    kind := "runtime"
    message := appendMatchMetadata baseMessage group.matchKey group.matchSource
    fix := "Invite the bot to the group, then DM the bot once (/start) and restart the gateway." }

/-- Check 5 of the synthesizer: one `runtime` issue per audit group entry
whose `ok` is not exactly true, in entry order. -/
def groupReachabilityCheck (accountId : String) (groups : List GroupAuditEntry) :
    List ChannelStatusIssue :=
  groups.filterMap fun group =>
    if group.ok = some true then none else some (groupIssueFor accountId group)

/-- Check 6 of the synthesizer: the running-but-disconnected runtime issue. -/
def runtimeConnectivityCheck (account : TelegramAccountStatus) (accountId : String) :
    List ChannelStatusIssue :=
  let running := strictTrue account.running
  let connected := strictTrue account.connected
  let lastError := asString account.lastError
  if running && !connected then
    [{ channel := "telegram"
       accountId
       kind := "runtime"
       message := "Telegram runtime disconnected" ++
         (if optStrTruthy lastError then ": " ++ lastError.getD "" else ".")
       fix :=
         if isDnsResolutionFailure lastError then
           "Restore DNS/network access from this host to api.telegram.org (or set channels.telegram.proxy / OPENCLAW_TELEGRAM_PROXY) and restart the gateway."
         else
           "Check Telegram API connectivity and token validity, then restart the gateway." }]
  else []

/-- The `auth` issue pushed by branch (a) of the probe-failure check. -/
def authProbeIssue (probe : TelegramProbeSummary) (accountId : String) : ChannelStatusIssue :=
  { channel := "telegram"
    accountId
    kind := "auth"
    message := formatProbeIssueLabel probe "auth"
    fix := "Update channels.telegram.* token from BotFather for this bot and restart the gateway." }

/-- The `runtime` issue pushed by branch (b) of the probe-failure check. -/
def networkProbeIssue (probe : TelegramProbeSummary) (accountId : String) : ChannelStatusIssue :=
  { channel := "telegram"
    accountId
    kind := "runtime"
    message := "Telegram bot API probe is not reachable: " ++ formatProbeIssueLabel probe "runtime"
    fix :=
      if isDnsResolutionFailure probe.error then
        "Restore DNS/network access from this host to api.telegram.org (or set channels.telegram.proxy / OPENCLAW_TELEGRAM_PROXY)."
      else
        "Check gateway network/DNS egress to api.telegram.org and retry after connectivity is restored." }

/-- The `runtime` issue pushed by branch (c) of the probe-failure check. -/
def genericProbeIssue (probe : TelegramProbeSummary) (accountId : String) : ChannelStatusIssue :=
  { channel := "telegram"
    accountId
    kind := "runtime"
    message := "Telegram bot probe failed: " ++ formatProbeIssueLabel probe "runtime"
    fix := "Verify the bot token and Telegram API access from the gateway host; restart gateway after any changes." }

/-- Check 7 of the synthesizer: the probe-failure check with its three
mutually exclusive branches (auth, then network, then generic). -/
def probeCheck (probeVal : JsValue) (accountId : String) : List ChannelStatusIssue :=
  match readTelegramProbeSummary probeVal with
  | none => []
  | some probe =>
    if probe.ok = some false then
      if isAuthErrorSummary probe.error probe.status then
        [authProbeIssue probe accountId]
      else if isNetworkErrorSummary probe.error probe.status then
        [networkProbeIssue probe accountId]
      else
        [genericProbeIssue probe accountId]
    else []

/-- Checks 2 through 6, in source order. -/
def nonProbeIssues (account : TelegramAccountStatus) (accountId : String) :
    List ChannelStatusIssue :=
  let audit := readTelegramGroupMembershipAuditSummary account.audit
  unmentionedGroupsCheck account accountId ++
    wildcardAuditCheck audit accountId ++
    unresolvedGroupsCheck audit accountId ++
    groupReachabilityCheck accountId (audit.groups.getD []) ++
    runtimeConnectivityCheck account accountId

/-- The loop body of `collectTelegramStatusIssues` for one snapshot: gate,
then checks 2-6, then the probe check. -/
def collectAccountIssues (entry : JsValue) : List ChannelStatusIssue :=
  match readTelegramAccountStatus entry with
  | none => []
  | some account =>
    match resolveEnabledConfiguredAccountId account with
    | none => []
    | some accountId =>
      nonProbeIssues account accountId ++ probeCheck account.probe accountId

/-- `collectTelegramStatusIssues`: the whole engine, concatenating the
per-snapshot issue lists in input order. -/
def collectTelegramStatusIssues (accounts : List JsValue) : List ChannelStatusIssue :=
  accounts.flatMap collectAccountIssues

/-- The gate of claim C1, as a boolean over the raw snapshot: both flags
strictly true and the account id a non-empty string. -/
def gatePasses (entry : JsValue) : Bool :=
  strictTrue (entry.get "enabled") && strictTrue (entry.get "configured") &&
    optStrTruthy (asString (entry.get "accountId"))

/-- The auth phrase set as the spec states it, for comparison with
`isAuthErrorSummary`. -/
def specAuthPhrases : List String :=
  ["unauthorized", "invalid token", "not authorized", "bad request"]

/-- Scenario B of the spec: an enabled, configured account whose probe
failed with HTTP 401 "Unauthorized". -/
def scenarioB : JsValue :=
  .obj [("accountId", .str "a2"), ("enabled", .bool true), ("configured", .bool true),
        ("probe", .obj [("ok", .bool false), ("status", .num (.finite 401)),
                        ("error", .str "Unauthorized")])]

/-- Scenario D of the spec: a disabled account. -/
def scenarioD : JsValue :=
  .obj [("accountId", .str "a4"), ("enabled", .bool false), ("configured", .bool true)]

/-- A probe value that fails without auth or network signals, driving the
generic branch of the probe-failure check. -/
def probeGenericVal : JsValue :=
  .obj [("ok", .bool false), ("status", .num (.finite 500)), ("error", .str "boom")]

/-- The single issue produced for Scenario B. -/
def scenarioBIssue : ChannelStatusIssue :=
  { channel := "telegram"
    accountId := "a2"
    kind := "auth"
    message := "Token validation failed (HTTP 401): Unauthorized"
    fix := "Update channels.telegram.* token from BotFather for this bot and restart the gateway." }

/-! ### Helper lemmas -/

theorem listStartsWith_append (pat l rest : List Char)
    (h : listStartsWith l pat = true) : listStartsWith (l ++ rest) pat = true := by
  induction pat generalizing l with
  | nil => simp [listStartsWith]
  | cons b bs ih =>
    cases l with
    | nil => simp [listStartsWith] at h
    | cons a as =>
      simp only [listStartsWith, Bool.and_eq_true] at h
      simp only [List.cons_append, listStartsWith, Bool.and_eq_true]
      exact ⟨h.1, ih as h.2⟩

theorem listContainsSub_append_left (pat l rest : List Char)
    (h : listContainsSub l pat = true) : listContainsSub (l ++ rest) pat = true := by
  induction l with
  | nil =>
    cases pat with
    | nil => cases rest with
      | nil => simp [listContainsSub, listStartsWith]
      | cons c cs => simp [listContainsSub, listStartsWith]
    | cons b bs => simp [listContainsSub, listStartsWith] at h
  | cons a as ih =>
    simp only [listContainsSub, Bool.or_eq_true] at h
    rcases h with h | h
    · simp only [List.cons_append, listContainsSub, Bool.or_eq_true]
      exact Or.inl (listStartsWith_append pat _ rest h)
    · simp only [List.cons_append, listContainsSub, Bool.or_eq_true]
      exact Or.inr (ih h)

theorem strIncludes_append_left (s t pat : String)
    (h : strIncludes s pat = true) : strIncludes (s ++ t) pat = true := by
  unfold strIncludes at h ⊢
  rw [String.data_append]
  exact listContainsSub_append_left pat.data s.data t.data h

/-! ### Claims -/

/-- C4: the auth classifier is true whenever status is exactly 401 or 403,
and otherwise true exactly when the lower-cased error text contains one of
the phrases "unauthorized", "invalid token", "not authorized",
"bad request" (absent text matching nothing). -/
theorem isAuthErrorSummary_characterized (t : Option String) (s : Option Int) :
    isAuthErrorSummary t s =
      (s == some 401 || s == some 403 ||
        specAuthPhrases.any (fun p => strIncludes (strToLower (t.getD "")) p)) := by
  cases t with
  | none =>
    have h : specAuthPhrases.any
        (fun p => strIncludes (strToLower ((none : Option String).getD "")) p) = false := by
      decide
    rw [h]
    simp [isAuthErrorSummary]
  | some txt =>
    simp [isAuthErrorSummary, specAuthPhrases, Bool.or_assoc]

/-- C5: the network classifier is false whenever a status is present,
whatever the error text (including status 0). -/
theorem isNetworkErrorSummary_false_of_status (t : Option String) (n : Int) :
    isNetworkErrorSummary t (some n) = false := rfl

/-- C6: the network classifier is true when both the status and the error
text are absent. -/
theorem isNetworkErrorSummary_true_of_absent :
    isNetworkErrorSummary none none = true := rfl

/-- C9: empty-string error text with absent status is treated exactly like
absent error text: the classifier returns true without consulting the
connectivity substring list, and agrees with the absent-text classifier for
every status. -/
theorem isNetworkErrorSummary_empty_text :
    isNetworkErrorSummary (some "") none = true ∧
      ∀ s : Option Int, isNetworkErrorSummary (some "") s = isNetworkErrorSummary none s := by
  constructor
  · decide
  · intro s
    cases s with
    | none => decide
    | some n => rfl

/-- C7 (Scenario B): on the single snapshot with accountId "a2", enabled and
configured, and a probe that failed with HTTP 401 "Unauthorized", the engine
returns exactly one issue, of kind auth, whose message begins with
"Token validation failed" and contains "401". -/
theorem collect_scenarioB :
    collectTelegramStatusIssues [scenarioB] = [scenarioBIssue] ∧
      scenarioBIssue.kind = "auth" ∧
      strStartsWith scenarioBIssue.message "Token validation failed" = true ∧
      strIncludes scenarioBIssue.message "401" = true := by
  refine ⟨?_, rfl, ?_, ?_⟩ <;> decide

/-- C8: the engine is deterministic — structurally identical input lists
produce equal output lists. -/
theorem collect_deterministic (xs ys : List JsValue) (h : xs = ys) :
    collectTelegramStatusIssues xs = collectTelegramStatusIssues ys := by
  rw [h]

/-- Witness for C8 at the Scenario B input. -/
theorem collect_deterministic_witness :
    collectTelegramStatusIssues [scenarioB] = collectTelegramStatusIssues [scenarioB] :=
  collect_deterministic [scenarioB] [scenarioB] rfl

theorem resolve_none_of_gate_failure (account : TelegramAccountStatus)
    (h : (strictTrue account.enabled && strictTrue account.configured &&
        optStrTruthy (asString account.accountId)) = false) :
    resolveEnabledConfiguredAccountId account = none := by
  unfold resolveEnabledConfiguredAccountId
  by_cases hb : (strictTrue account.enabled && strictTrue account.configured) = true
  · rw [hb, Bool.true_and] at h
    rw [if_pos hb]
    cases ha : asString account.accountId with
    | none => rfl
    | some s =>
      rw [ha] at h
      unfold optStrTruthy at h
      rw [Bool.not_eq_false'] at h
      simp [h]
  · rw [if_neg hb]

theorem collectAccountIssues_gate_failure (entry : JsValue)
    (h : gatePasses entry = false) : collectAccountIssues entry = [] := by
  cases hr : readTelegramAccountStatus entry with
  | none => simp [collectAccountIssues, hr]
  | some account =>
    have hacc : (strictTrue account.enabled && strictTrue account.configured &&
        optStrTruthy (asString account.accountId)) = false := by
      unfold readTelegramAccountStatus at hr
      split at hr
      · injection hr with hr
        subst hr
        simpa [gatePasses] using h
      · cases hr
    simp [collectAccountIssues, hr, resolve_none_of_gate_failure account hacc]

/-- C1: a snapshot that fails the gate (enabled and configured not both
strictly true, or no non-empty string account id) contributes no issue at
all: removing it from the input leaves the output unchanged, so no later
per-account check ever fires for it. -/
theorem collect_gate_failure_excluded (pre post : List JsValue) (entry : JsValue)
    (h : gatePasses entry = false) :
    collectTelegramStatusIssues (pre ++ entry :: post) =
      collectTelegramStatusIssues (pre ++ post) := by
  unfold collectTelegramStatusIssues
  rw [List.flatMap_append, List.flatMap_append, List.flatMap_cons,
    collectAccountIssues_gate_failure entry h, List.nil_append]

/-- Witness for C1 at the Scenario D input (enabled is false). -/
theorem collect_gate_failure_excluded_witness :
    gatePasses scenarioD = false ∧
      collectTelegramStatusIssues ([] ++ scenarioD :: []) =
        collectTelegramStatusIssues ([] ++ []) :=
  ⟨by decide, collect_gate_failure_excluded [] [] scenarioD (by decide)⟩

theorem networkProbeIssue_message_includes (probe : TelegramProbeSummary) (aid : String) :
    strIncludes (networkProbeIssue probe aid).message "probe is not reachable" = true :=
  strIncludes_append_left "Telegram bot API probe is not reachable: "
    (formatProbeIssueLabel probe "runtime") "probe is not reachable" (by decide)

theorem genericProbeIssue_message_includes (probe : TelegramProbeSummary) (aid : String) :
    strIncludes (genericProbeIssue probe aid).message "bot probe failed" = true :=
  strIncludes_append_left "Telegram bot probe failed: "
    (formatProbeIssueLabel probe "runtime") "bot probe failed" (by decide)

/-- C2: the probe-failure check contributes at most one issue; nothing
unless the probe summary is present with `ok` exactly false, and then
exactly one issue, chosen by the auth classifier first, the network
classifier second, the generic fallback last; and the probe check sits at
the end of the per-account list, independent of the other checks. -/
theorem probeCheck_exclusive :
    (∀ (v : JsValue) (aid : String),
      (probeCheck v aid).length ≤ 1
      ∧ (readTelegramProbeSummary v = none → probeCheck v aid = [])
      ∧ (∀ p, readTelegramProbeSummary v = some p → p.ok ≠ some false → probeCheck v aid = [])
      ∧ (∀ p, readTelegramProbeSummary v = some p → p.ok = some false →
          (probeCheck v aid).length = 1
          ∧ (isAuthErrorSummary p.error p.status = true →
              (probeCheck v aid).all (fun i => i.kind == "auth") = true)
          ∧ (isAuthErrorSummary p.error p.status = false →
              isNetworkErrorSummary p.error p.status = true →
              (probeCheck v aid).all (fun i =>
                i.kind == "runtime" && strIncludes i.message "probe is not reachable") = true)
          ∧ (isAuthErrorSummary p.error p.status = false →
              isNetworkErrorSummary p.error p.status = false →
              (probeCheck v aid).all (fun i =>
                i.kind == "runtime" && strIncludes i.message "bot probe failed") = true)))
    ∧ (∀ (entry : JsValue) (account : TelegramAccountStatus) (aid : String),
        readTelegramAccountStatus entry = some account →
        resolveEnabledConfiguredAccountId account = some aid →
        collectAccountIssues entry =
          nonProbeIssues account aid ++ probeCheck account.probe aid) := by
  constructor
  · intro v aid
    cases hr : readTelegramProbeSummary v with
    | none =>
      have he : probeCheck v aid = [] := by simp [probeCheck, hr]
      rw [he]
      exact ⟨by simp, fun _ => rfl, fun p hp _ => rfl,
        fun p hp => by simp [hr] at hp⟩
    | some q =>
      by_cases hok : q.ok = some false
      · by_cases hauth : isAuthErrorSummary q.error q.status = true
        · have he : probeCheck v aid = [authProbeIssue q aid] := by
            simp [probeCheck, hr, hok, hauth]
          rw [he]
          refine ⟨by simp, fun hn => Option.noConfusion hn, fun p hp hne => ?_, ?_⟩
          · obtain rfl : p = q := (Option.some.inj hp).symm
            exact absurd hok hne
          · intro p hp _
            obtain rfl : p = q := (Option.some.inj hp).symm
            exact ⟨rfl, fun _ => rfl,
              fun hna _ => absurd hauth (by simp [hna]),
              fun hna _ => absurd hauth (by simp [hna])⟩
        · rw [Bool.not_eq_true] at hauth
          by_cases hnet : isNetworkErrorSummary q.error q.status = true
          · have he : probeCheck v aid = [networkProbeIssue q aid] := by
              simp [probeCheck, hr, hok, hauth, hnet]
            rw [he]
            refine ⟨by simp, fun hn => Option.noConfusion hn, fun p hp hne => ?_, ?_⟩
            · obtain rfl : p = q := (Option.some.inj hp).symm
              exact absurd hok hne
            · intro p hp _
              obtain rfl : p = q := (Option.some.inj hp).symm
              refine ⟨rfl, fun hya => absurd hya (by simp [hauth]), fun _ _ => ?_,
                fun _ hnn => absurd hnn (by simp [hnet])⟩
              simp only [List.all_cons, List.all_nil, Bool.and_true]
              rw [networkProbeIssue_message_includes p aid]
              rfl
          · rw [Bool.not_eq_true] at hnet
            have he : probeCheck v aid = [genericProbeIssue q aid] := by
              simp [probeCheck, hr, hok, hauth, hnet]
            rw [he]
            refine ⟨by simp, fun hn => Option.noConfusion hn, fun p hp hne => ?_, ?_⟩
            · obtain rfl : p = q := (Option.some.inj hp).symm
              exact absurd hok hne
            · intro p hp _
              obtain rfl : p = q := (Option.some.inj hp).symm
              refine ⟨rfl, fun hya => absurd hya (by simp [hauth]),
                fun _ hyn => absurd hyn (by simp [hnet]), fun _ _ => ?_⟩
              simp only [List.all_cons, List.all_nil, Bool.and_true]
              rw [genericProbeIssue_message_includes p aid]
              rfl
      · have he : probeCheck v aid = [] := by simp [probeCheck, hr, hok]
        rw [he]
        refine ⟨by simp, fun _ => rfl, fun p hp _ => rfl, fun p hp hpo => ?_⟩
        obtain rfl : p = q := (Option.some.inj hp).symm
        exact absurd hpo hok
  · intro entry account aid h1 h2
    simp [collectAccountIssues, h1, h2]

/-- Witness for C2 at a probe that fails with neither auth nor network
signals, driving the generic branch. -/
theorem probeCheck_exclusive_witness :
    (probeCheck probeGenericVal "a9").length = 1 ∧
      (probeCheck probeGenericVal "a9").all
        (fun i => i.kind == "runtime" && strIncludes i.message "bot probe failed") = true := by
  have h := (probeCheck_exclusive.1 probeGenericVal "a9").2.2.2
    ⟨some false, some 500, some "boom"⟩ (by decide) (by decide)
  exact ⟨h.1, h.2.2.2 (by decide) (by decide)⟩

/-- C3: per-group reachability emits exactly one `runtime` issue per entry
whose `ok` is not exactly true, in entry order (the check is the map of the
issue builder over the failing entries), and entries with `ok` exactly true
contribute nothing. -/
theorem groupReachabilityCheck_characterized (aid : String) (groups : List GroupAuditEntry) :
    groupReachabilityCheck aid groups =
      (groups.filter (fun g => !(g.ok == some true))).map (groupIssueFor aid)
    ∧ (groupReachabilityCheck aid groups).all (fun i => i.kind == "runtime") = true := by
  have hmap : groupReachabilityCheck aid groups =
      (groups.filter (fun g => !(g.ok == some true))).map (groupIssueFor aid) := by
    induction groups with
    | nil => rfl
    | cons g gs ih =>
      by_cases hg : g.ok = some true
      · simpa [groupReachabilityCheck, List.filterMap_cons, List.filter_cons, hg] using ih
      · simpa [groupReachabilityCheck, List.filterMap_cons, List.filter_cons, hg] using ih
  refine ⟨hmap, ?_⟩
  rw [hmap, List.all_eq_true]
  intro i hi
  rw [List.mem_map] at hi
  obtain ⟨g, -, rfl⟩ := hi
  rfl

theorem mem_unmentionedGroupsCheck {account : TelegramAccountStatus} {aid : String}
    {i : ChannelStatusIssue} (h : i ∈ unmentionedGroupsCheck account aid) :
    i.channel = "telegram" ∧ i.accountId = aid := by
  unfold unmentionedGroupsCheck at h
  split at h
  · rw [List.mem_singleton] at h
    subst h
    exact ⟨rfl, rfl⟩
  · cases h

theorem mem_wildcardAuditCheck {audit : TelegramGroupMembershipAuditSummary} {aid : String}
    {i : ChannelStatusIssue} (h : i ∈ wildcardAuditCheck audit aid) :
    i.channel = "telegram" ∧ i.accountId = aid := by
  unfold wildcardAuditCheck at h
  split at h
  · rw [List.mem_singleton] at h
    subst h
    exact ⟨rfl, rfl⟩
  · cases h

theorem mem_unresolvedGroupsCheck {audit : TelegramGroupMembershipAuditSummary} {aid : String}
    {i : ChannelStatusIssue} (h : i ∈ unresolvedGroupsCheck audit aid) :
    i.channel = "telegram" ∧ i.accountId = aid := by
  unfold unresolvedGroupsCheck at h
  split at h
  · split at h
    · rw [List.mem_singleton] at h
      subst h
      exact ⟨rfl, rfl⟩
    · cases h
  · cases h

theorem mem_groupReachabilityCheck {aid : String} {groups : List GroupAuditEntry}
    {i : ChannelStatusIssue} (h : i ∈ groupReachabilityCheck aid groups) :
    i.channel = "telegram" ∧ i.accountId = aid := by
  unfold groupReachabilityCheck at h
  rw [List.mem_filterMap] at h
  obtain ⟨g, -, hg⟩ := h
  split at hg
  · cases hg
  · rw [Option.some.injEq] at hg
    subst hg
    exact ⟨rfl, rfl⟩

theorem mem_runtimeConnectivityCheck {account : TelegramAccountStatus} {aid : String}
    {i : ChannelStatusIssue} (h : i ∈ runtimeConnectivityCheck account aid) :
    i.channel = "telegram" ∧ i.accountId = aid := by
  simp only [runtimeConnectivityCheck] at h
  split at h
  · rw [List.mem_singleton] at h
    subst h
    exact ⟨rfl, rfl⟩
  · cases h

theorem mem_probeCheck {v : JsValue} {aid : String}
    {i : ChannelStatusIssue} (h : i ∈ probeCheck v aid) :
    i.channel = "telegram" ∧ i.accountId = aid := by
  unfold probeCheck at h
  split at h
  · cases h
  · split at h
    · split at h
      · rw [List.mem_singleton] at h
        subst h
        exact ⟨rfl, rfl⟩
      · split at h
        · rw [List.mem_singleton] at h
          subst h
          exact ⟨rfl, rfl⟩
        · rw [List.mem_singleton] at h
          subst h
          exact ⟨rfl, rfl⟩
    · cases h

theorem mem_nonProbeIssues {account : TelegramAccountStatus} {aid : String}
    {i : ChannelStatusIssue} (h : i ∈ nonProbeIssues account aid) :
    i.channel = "telegram" ∧ i.accountId = aid := by
  unfold nonProbeIssues at h
  simp only [List.mem_append] at h
  rcases h with ((((h | h) | h) | h) | h)
  · exact mem_unmentionedGroupsCheck h
  · exact mem_wildcardAuditCheck h
  · exact mem_unresolvedGroupsCheck h
  · exact mem_groupReachabilityCheck h
  · exact mem_runtimeConnectivityCheck h

theorem mem_collectAccountIssues {entry : JsValue} {i : ChannelStatusIssue}
    (h : i ∈ collectAccountIssues entry) :
    ∃ account, readTelegramAccountStatus entry = some account ∧
      resolveEnabledConfiguredAccountId account = some i.accountId ∧
      i.channel = "telegram" := by
  unfold collectAccountIssues at h
  split at h
  · cases h
  · rename_i account hread
    split at h
    · cases h
    · rename_i aid hres
      rw [List.mem_append] at h
      rcases h with h | h
      · obtain ⟨hch, hid⟩ := mem_nonProbeIssues h
        exact ⟨account, hread, by rw [hid]; exact hres, hch⟩
      · obtain ⟨hch, hid⟩ := mem_probeCheck h
        exact ⟨account, hread, by rw [hid]; exact hres, hch⟩

theorem resolve_some_ne_empty {account : TelegramAccountStatus} {s : String}
    (h : resolveEnabledConfiguredAccountId account = some s) : s ≠ "" := by
  unfold resolveEnabledConfiguredAccountId at h
  split at h
  · split at h
    · rename_i s' hs'
      split at h
      · cases h
      · rename_i hne
        rw [Option.some.injEq] at h
        subst h
        intro hcontra
        subst hcontra
        exact hne (by decide)
    · cases h
  · cases h

/-- C10: every output issue carries channel "telegram" and the non-empty
resolved account id of the snapshot whose checks produced it. -/
theorem collect_issue_attribution (accounts : List JsValue) (i : ChannelStatusIssue)
    (h : i ∈ collectTelegramStatusIssues accounts) :
    i.channel = "telegram" ∧ i.accountId ≠ "" ∧
      ∃ entry, entry ∈ accounts ∧ i ∈ collectAccountIssues entry ∧
        ∃ account, readTelegramAccountStatus entry = some account ∧
          resolveEnabledConfiguredAccountId account = some i.accountId := by
  rw [collectTelegramStatusIssues, List.mem_flatMap] at h
  obtain ⟨entry, hentry, hi⟩ := h
  obtain ⟨account, hread, hres, hch⟩ := mem_collectAccountIssues hi
  exact ⟨hch, resolve_some_ne_empty hres, entry, hentry, hi, account, hread, hres⟩

/-- Witness for C10 at the Scenario B input and its auth issue. -/
theorem collect_issue_attribution_witness :
    scenarioBIssue.channel = "telegram" ∧ scenarioBIssue.accountId ≠ "" ∧
      ∃ entry, entry ∈ [scenarioB] ∧ scenarioBIssue ∈ collectAccountIssues entry ∧
        ∃ account, readTelegramAccountStatus entry = some account ∧
          resolveEnabledConfiguredAccountId account = some scenarioBIssue.accountId :=
  collect_issue_attribution [scenarioB] scenarioBIssue (by decide)

/-- Witness for C3 at a two-entry groups list (one failing, one ok). -/
theorem groupReachabilityCheck_characterized_witness :
    groupReachabilityCheck "a5"
        [{ chatId := "-100", ok := some false, status := some "kicked",
           error := none, matchKey := none, matchSource := none },
         { chatId := "-200", ok := some true, status := none,
           error := none, matchKey := none, matchSource := none }] =
      (([{ chatId := "-100", ok := some false, status := some "kicked",
           error := none, matchKey := none, matchSource := none },
         { chatId := "-200", ok := some true, status := none,
           error := none, matchKey := none, matchSource := none }] :
          List GroupAuditEntry).filter
        (fun g => !(g.ok == some true))).map (groupIssueFor "a5")
    ∧ (groupReachabilityCheck "a5"
        [{ chatId := "-100", ok := some false, status := some "kicked",
           error := none, matchKey := none, matchSource := none },
         { chatId := "-200", ok := some true, status := none,
           error := none, matchKey := none, matchSource := none }]).all
        (fun i => i.kind == "runtime") = true :=
  groupReachabilityCheck_characterized "a5"
    [{ chatId := "-100", ok := some false, status := some "kicked",
       error := none, matchKey := none, matchSource := none },
     { chatId := "-200", ok := some true, status := none,
       error := none, matchKey := none, matchSource := none }]

/-- Witness for C4 at status 401 with innocuous text. -/
theorem isAuthErrorSummary_characterized_witness :
    isAuthErrorSummary (some "totally fine") (some 401) =
      ((some 401 : Option Int) == some 401 || (some 401 : Option Int) == some 403 ||
        specAuthPhrases.any
          (fun p => strIncludes (strToLower ((some "totally fine").getD "")) p)) :=
  isAuthErrorSummary_characterized (some "totally fine") (some 401)

/-- Witness for C5 at status 0 with connectivity-looking text. -/
theorem isNetworkErrorSummary_false_of_status_witness :
    isNetworkErrorSummary (some "timeout") (some 0) = false :=
  isNetworkErrorSummary_false_of_status (some "timeout") 0

/-- Witness for C9 at a present status. -/
theorem isNetworkErrorSummary_empty_text_witness :
    isNetworkErrorSummary (some "") (some 5) = isNetworkErrorSummary none (some 5) :=
  isNetworkErrorSummary_empty_text.2 (some 5)
